import Mathlib

/-!
Verification of django-modeltranslation's field and descriptor layer
(`modeltranslation/fields.py`, `modeltranslation/models.py`).

Python values that flow through the translated attributes are modelled by
`PyVal` (either Python's `None` or a string), a model instance by its
attribute dictionary `Instance := String → Option PyVal` (where `Option.none`
means the attribute is absent, so `hasattr` is `Option.isSome`), and the
ambient active language (`django.utils.translation.get_language`) and the
configured default language by explicit parameters.
-/

/-- A Python value as seen by the descriptor layer: `None` or a string. -/
inductive PyVal where
  | none : PyVal
  | str : String → PyVal
deriving DecidableEq, Repr

/-- Python truthiness for the values above: `None` and `""` are falsy. -/
def truthy : PyVal → Bool
  | PyVal.none => false
  | PyVal.str s => s != ""

/-- Modelled from the spec: `build_localized_fieldname` is defined in
`modeltranslation.utils`, which is absent from the sources; the spec says a
declared field gets a language-suffixed sibling, e.g. `title` becomes
`title_en` and `title_de`. -/
def build_localized_fieldname (name lang : String) : String :=
  name ++ "_" ++ lang

/-- Modelled from the spec: `build_localized_verbose_name` is defined in
`modeltranslation.utils`, which is absent from the sources; the spec and the
code comment say the verbose name gains a language suffix. -/
def build_localized_verbose_name (verbose lang : String) : String :=
  verbose ++ " [" ++ lang ++ "]"

/-- The attribute dictionary of a model instance: `Option.none` means the
attribute is absent (`hasattr` is false). -/
def Instance : Type := String → Option PyVal

theorem build_localized_fieldname_length (name lang : String) :
    (build_localized_fieldname name lang).length = name.length + 1 + lang.length := by
  simp [build_localized_fieldname, String.length_append]
  rfl

theorem build_localized_fieldname_ne_name (name lang : String) :
    build_localized_fieldname name lang ≠ name := by
  intro h
  have := build_localized_fieldname_length name lang
  rw [h] at this
  omega

theorem build_localized_fieldname_inj (name : String) {l₁ l₂ : String}
    (h : build_localized_fieldname name l₁ = build_localized_fieldname name l₂) :
    l₁ = l₂ := by
  unfold build_localized_fieldname at h
  have hd : (name ++ "_" ++ l₁).data = (name ++ "_" ++ l₂).data := by rw [h]
  simp only [String.data_append] at hd
  have := List.append_cancel_left hd
  exact String.ext this

/-- `TranslationFieldDescriptor.__set__` (fields.py lines 143-150): writes the
value to the active language's localized sibling attribute and to the original
field's slot in `instance.__dict__`. `lang` is the ambient
`get_language()`. -/
def descSet (name lang : String) (value : PyVal) (inst : Instance) : Instance :=
  let loc_field_name := build_localized_fieldname name lang
  fun k => if k = loc_field_name then Option.some value
           else if k = name then Option.some value
           else inst k

/-- `TranslationFieldDescriptor.get_default_instance` (fields.py lines
166-171): reads `instance.__dict__[self.name]`, the original field's slot. -/
def get_default_instance (name : String) (inst : Instance) : Option PyVal :=
  inst name

/-- `TranslationFieldDescriptor.__get__` (fields.py lines 152-164) as run on
an instance. `fallback_value` is `Option.none` when the Python attribute is
`None`. The result is `Option.some v` when the Python method returns `v`
(including the implicit `return None` when the localized attribute is
absent), and `Option.none` when `instance.__dict__[self.name]` would raise
`KeyError` in `get_default_instance`. -/
def descGet (fallback_value : Option PyVal) (name lang : String)
    (inst : Instance) : Option PyVal :=
  let loc_field_name := build_localized_fieldname name lang
  match inst loc_field_name with
  | Option.some v =>
      if truthy v then Option.some v
      else match fallback_value with
           | Option.none => get_default_instance name inst
           | Option.some f => Option.some f
  | Option.none => Option.some PyVal.none

example :
    descGet Option.none "title" "en"
      (descSet "title" "en" (PyVal.str "hello") (fun _ => Option.none))
      = Option.some (PyVal.str "hello") := by decide

example :
    descGet (Option.some (PyVal.str "fb")) "title" "en"
      (descSet "title" "en" (PyVal.str "") (fun _ => Option.none))
      = Option.some (PyVal.str "fb") := by decide

/-- The attributes and methods of a wrapped Django model field that the
translation layer reads: identification (`name`, `attname`, `verbose_name`),
nullability flags, and the delegated behavior (`to_python`,
`get_prep_value`, `get_prep_lookup`, `get_internal_type`, and the widget
class produced by `formfield`, recorded by its name). -/
structure DjangoField where
  name : String
  attname : String
  verbose_name : String
  null : Bool
  blank : Bool
  to_python : PyVal → PyVal
  get_prep_value : PyVal → PyVal
  get_prep_lookup : String → PyVal → PyVal
  get_internal_type : String
  formfieldWidget : String

/-- The state of a `TranslationField` (fields.py lines 47-129) after
`__init__`/`_post_init`: the wrapped field's `__dict__` is copied and then
`translated_field`, `language`, `null`, `blank`, `attname`, `name` and
`verbose_name` are overwritten. -/
structure TranslationField where
  name : String
  attname : String
  verbose_name : String
  null : Bool
  blank : Bool
  translated_field : DjangoField
  language : String

/-- `TranslationField.__init__` followed by `_post_init` (fields.py lines
65-90): copy the wrapped field's dict, force `null`/`blank` to `True`, and
rename the field to the localized name. -/
def mkTranslationField (f : DjangoField) (language : String) : TranslationField :=
  { name := build_localized_fieldname f.name language
    attname := build_localized_fieldname f.name language
    verbose_name := build_localized_verbose_name f.verbose_name language
    null := true
    blank := true
    translated_field := f
    language := language }

/-- `TranslationField.to_python` (fields.py lines 108-109): delegates to the
wrapped field. -/
def TranslationField.to_python (tf : TranslationField) (value : PyVal) : PyVal :=
  tf.translated_field.to_python value

/-- `TranslationField.get_prep_lookup` (fields.py lines 105-106): delegates
to the wrapped field. -/
def TranslationField.get_prep_lookup (tf : TranslationField)
    (lookup_type : String) (value : PyVal) : PyVal :=
  tf.translated_field.get_prep_lookup lookup_type value

/-- `TranslationField.get_internal_type` (fields.py lines 111-112): delegates
to the wrapped field. -/
def TranslationField.get_internal_type (tf : TranslationField) : String :=
  tf.translated_field.get_internal_type

/-- `TranslationField.get_prep_value` (fields.py lines 100-103): maps `''` to
`None`, then delegates to the wrapped field's `get_prep_value`. -/
def TranslationField.get_prep_value (tf : TranslationField) (value : PyVal) : PyVal :=
  let value := if value = PyVal.str "" then PyVal.none else value
  tf.translated_field.get_prep_value value

/-- `TranslationField.formfield` (fields.py lines 124-129): the widget class
of the produced form field is the class of the wrapped field's formfield
widget. -/
def TranslationField.formfieldWidget (tf : TranslationField) : String :=
  tf.translated_field.formfieldWidget

/-- `TranslationField.pre_save` (fields.py lines 92-98).
`Field.pre_save` in Django returns `getattr(model_instance, self.attname)`,
here the localized shadow attribute (`Option.getD PyVal.none` stands for the
attribute value; theorems supply it explicitly). When the field's language is
the configured default language and `add` is false, the value is also written
into `model_instance.__dict__` at the wrapped field's `attname`. Returns the
updated instance dictionary and the returned value. -/
def TranslationField.pre_save (DEFAULT_LANGUAGE : String) (tf : TranslationField)
    (model_instance : Instance) (add : Bool) : Instance × PyVal :=
  let val := (model_instance tf.attname).getD PyVal.none
  if DEFAULT_LANGUAGE = tf.language ∧ ¬(add = true) then
    (fun k => if k = tf.translated_field.attname then Option.some val
              else model_instance k, val)
  else
    (model_instance, val)

/-- The state of a `TranslationFileField` (fields.py lines 250-345) after
`__init__`/`_post_init`, which performs the same renaming and `null`/`blank`
overrides as `TranslationField._post_init`. -/
structure TranslationFileField where
  name : String
  attname : String
  verbose_name : String
  null : Bool
  blank : Bool
  translated_field : DjangoField
  language : String

/-- `TranslationFileField.__init__` followed by `_post_init` (fields.py lines
268-306), restricted to the dict copy and `_post_init` overrides. -/
def mkTranslationFileField (f : DjangoField) (language : String) : TranslationFileField :=
  { name := build_localized_fieldname f.name language
    attname := build_localized_fieldname f.name language
    verbose_name := build_localized_verbose_name f.verbose_name language
    null := true
    blank := true
    translated_field := f
    language := language }

/-- `TranslationFileField.get_prep_value` (fields.py lines 316-319): returns
`None` for `''` or `None` without delegating; otherwise delegates. -/
def TranslationFileField.get_prep_value (tf : TranslationFileField)
    (value : PyVal) : PyVal :=
  if value = PyVal.str "" ∨ value = PyVal.none then PyVal.none
  else tf.translated_field.get_prep_value value

/-- The `isinstance` facts about a declared model field that
`create_translation_field` inspects, plus its class name. -/
structure ModelField where
  clsName : String
  isCharField : Bool
  isTextField : Bool
  isFileField : Bool
  isImageField : Bool

/-- Which translation field class `create_translation_field` constructs. -/
inductive TransFieldKind where
  | plain : TransFieldKind
  | file : TransFieldKind
  | image : TransFieldKind
deriving DecidableEq, Repr

/-- `create_translation_field` (fields.py lines 19-44): raises
`ImproperlyConfigured` (modelled by `Except.error` with the formatted
message) unless the field is a `CharField`/`TextField`/`FileField`/
`ImageField` instance or its class name is in `CUSTOM_FIELDS` (a setting from
`modeltranslation.settings`, absent from the sources, passed as a
parameter); then dispatches on `ImageField` before `FileField`. -/
def create_translation_field (CUSTOM_FIELDS : List String) (f : ModelField) :
    Except String TransFieldKind :=
  if ¬(f.isCharField = true ∨ f.isTextField = true ∨ f.isFileField = true ∨
       f.isImageField = true ∨ f.clsName ∈ CUSTOM_FIELDS) then
    Except.error (f.clsName ++ " is not supported by modeltranslation.")
  else if f.isImageField then Except.ok TransFieldKind.image
  else if f.isFileField then Except.ok TransFieldKind.file
  else Except.ok TransFieldKind.plain

/-- Modelled from the spec: the patching step (models.py lines 9-11, "Every
model registered ... is patched to contain additional localized versions for
every field specified in the model's translation options"; the registry code
itself is not under the sources). For one declared field it generates one
language-suffixed shadow column name per configured language. -/
def add_translation_fields (fieldName : String) (languages : List String) : List String :=
  languages.map (fun lang => build_localized_fieldname fieldName lang)

/-- A concrete `CharField` named `title`, used for concrete evaluations. -/
def titleField : DjangoField :=
  { name := "title"
    attname := "title"
    verbose_name := "title"
    null := false
    blank := false
    to_python := fun v => v
    get_prep_value := fun v => v
    get_prep_lookup := fun _ v => v
    get_internal_type := "CharField"
    formfieldWidget := "TextInput" }

/-- The shadow field `title_de` of `titleField`. -/
def title_de : TranslationField := mkTranslationField titleField "de"

/-- A concrete instance dictionary: the `en` shadow `title_en` holds the falsy
`""`, the `de` shadow `title_de` holds `"hallo"`, and the original slot
`title` holds `"orig"`. -/
def c1Instance : Instance := fun k =>
  if k = "title_en" then Option.some (PyVal.str "") else
  if k = "title_de" then Option.some (PyVal.str "hallo") else
  if k = "title" then Option.some (PyVal.str "orig") else Option.none

/-- C2: `TranslationFieldDescriptor.__set__` writes the assigned value to the
active language's localized sibling attribute
(`build_localized_fieldname(name, get_language())`) and also stores it in the
original field's slot of `instance.__dict__`. -/
theorem descSet_writes_localized_and_original (name lang : String) (v : PyVal)
    (inst : Instance) :
    descSet name lang v inst (build_localized_fieldname name lang) = Option.some v ∧
    descSet name lang v inst name = Option.some v := by
  have h := build_localized_fieldname_ne_name name lang
  exact ⟨by simp [descSet], by simp [descSet, Ne.symm h]⟩

/-- C5: an assignment through the descriptor under active language `lang`
modifies only the localized key of `lang` and the original slot; every other
key, in particular every other language's shadow field, keeps its previous
value. -/
theorem descSet_frame (name lang : String) (v : PyVal) (inst : Instance) :
    (∀ k, k ≠ build_localized_fieldname name lang → k ≠ name →
      descSet name lang v inst k = inst k) ∧
    (∀ lang', lang' ≠ lang →
      descSet name lang v inst (build_localized_fieldname name lang') =
        inst (build_localized_fieldname name lang')) := by
  constructor
  · intro k hk1 hk2
    simp [descSet, hk1, hk2]
  · intro lang' hl
    have h1 : build_localized_fieldname name lang' ≠ build_localized_fieldname name lang :=
      fun h => hl (build_localized_fieldname_inj name h)
    have h2 := build_localized_fieldname_ne_name name lang'
    simp [descSet, h1, h2]

theorem descSet_frame_witness :
    descSet "title" "en" (PyVal.str "x") c1Instance "body" = c1Instance "body" ∧
    descSet "title" "en" (PyVal.str "x") c1Instance
        (build_localized_fieldname "title" "de") =
      c1Instance (build_localized_fieldname "title" "de") :=
  ⟨(descSet_frame "title" "en" (PyVal.str "x") c1Instance).1 "body"
      (by decide) (by decide),
   (descSet_frame "title" "en" (PyVal.str "x") c1Instance).2 "de" (by decide)⟩

/-- C1 (counterexample): with the active language's shadow field present but
falsy and no fallback value configured, `__get__` does not return the default
language's shadow field value (here `"hallo"` under default language `de`);
it returns the original slot's value `"orig"` instead. -/
theorem descGet_default_shadow_counterexample :
    (c1Instance (build_localized_fieldname "title" "en")).isSome = true ∧
    truthy ((c1Instance (build_localized_fieldname "title" "en")).getD PyVal.none)
      = false ∧
    descGet Option.none "title" "en" c1Instance ≠
      c1Instance (build_localized_fieldname "title" "de") ∧
    descGet Option.none "title" "en" c1Instance = Option.some (PyVal.str "orig") := by
  decide

/-- C1 (amended): when the active language's shadow field exists but holds a
falsy value and no fallback value is configured, `__get__` returns
`get_default_instance(instance)`, i.e. the value stored in the original
field's slot of `instance.__dict__` — not the default language's shadow
field. -/
theorem descGet_falsy_fallback_returns_original_slot (name lang : String)
    (inst : Instance) (v : PyVal)
    (hs : inst (build_localized_fieldname name lang) = Option.some v)
    (hf : truthy v = false) :
    descGet Option.none name lang inst = get_default_instance name inst := by
  simp [descGet, hs, hf]

theorem descGet_falsy_fallback_returns_original_slot_witness :
    c1Instance (build_localized_fieldname "title" "en") = Option.some (PyVal.str "") ∧
    truthy (PyVal.str "") = false ∧
    descGet Option.none "title" "en" c1Instance = get_default_instance "title" c1Instance :=
  ⟨by decide, by decide,
   descGet_falsy_fallback_returns_original_slot "title" "en" c1Instance (PyVal.str "")
     (by decide) (by decide)⟩

/-- C4 (counterexample): with a configured fallback value, writing the falsy
`""` through the descriptor and reading it back under the same active
language returns the fallback value, not the written value. -/
theorem roundtrip_fallback_counterexample :
    descGet (Option.some (PyVal.str "fallback")) "title" "en"
        (descSet "title" "en" (PyVal.str "") (fun _ => Option.none))
      ≠ Option.some (PyVal.str "") := by
  decide

/-- C4 (amended): writing `v` through the descriptor and reading under the
same active language returns `v`, provided `v` is truthy or no fallback
value is configured. -/
theorem set_then_get_roundtrip (fallback_value : Option PyVal) (name lang : String)
    (inst : Instance) (v : PyVal)
    (h : truthy v = true ∨ fallback_value = Option.none) :
    descGet fallback_value name lang (descSet name lang v inst) = Option.some v := by
  have hln := build_localized_fieldname_ne_name name lang
  rcases h with ht | hfb
  · simp [descGet, descSet, ht]
  · subst hfb
    by_cases ht : truthy v
    · simp [descGet, descSet, ht]
    · simp [descGet, descSet, get_default_instance, ht, Ne.symm hln]

theorem set_then_get_roundtrip_witness :
    (truthy (PyVal.str "hello") = true ∨ (Option.none : Option PyVal) = Option.none) ∧
    descGet Option.none "title" "de" (descSet "title" "de" (PyVal.str "hello") c1Instance)
      = Option.some (PyVal.str "hello") :=
  ⟨Or.inl (by decide),
   set_then_get_roundtrip Option.none "title" "de" c1Instance (PyVal.str "hello")
     (Or.inl (by decide))⟩

/-- C3 (counterexample): on an initial insert (`add = True`),
`TranslationField.pre_save` of the default-language shadow field does not
mirror its value into the original column: here the shadow `title_de` holds
`"hallo"` and the original slot keeps `"orig"`. -/
theorem pre_save_add_counterexample :
    (TranslationField.pre_save "de" title_de c1Instance true).2 = PyVal.str "hallo" ∧
    (TranslationField.pre_save "de" title_de c1Instance true).1 "title"
      ≠ Option.some (PyVal.str "hallo") := by
  decide

/-- C3 (amended): when the field's language equals the default language and
`add` is false, `pre_save` writes the field's pre-save value into
`model_instance.__dict__` at the wrapped field's `attname` and returns that
value unchanged. -/
theorem pre_save_default_language_mirrors_original (DEFAULT_LANGUAGE : String)
    (tf : TranslationField) (inst : Instance) (v : PyVal)
    (hlang : DEFAULT_LANGUAGE = tf.language)
    (hval : inst tf.attname = Option.some v) :
    (TranslationField.pre_save DEFAULT_LANGUAGE tf inst false).1
        tf.translated_field.attname = Option.some v ∧
    (TranslationField.pre_save DEFAULT_LANGUAGE tf inst false).2 = v := by
  simp [TranslationField.pre_save, hlang, hval]

theorem pre_save_default_language_mirrors_original_witness :
    ("de" = title_de.language ∧ c1Instance title_de.attname = Option.some (PyVal.str "hallo")) ∧
    (TranslationField.pre_save "de" title_de c1Instance false).1
        title_de.translated_field.attname = Option.some (PyVal.str "hallo") ∧
    (TranslationField.pre_save "de" title_de c1Instance false).2 = PyVal.str "hallo" :=
  ⟨⟨rfl, by decide⟩,
   pre_save_default_language_mirrors_original "de" title_de c1Instance
     (PyVal.str "hallo") rfl (by decide)⟩

/-- C6: the constructed `TranslationField` is renamed to the localized name
(`attname` and `name` are `build_localized_fieldname` of the wrapped field's
name and the language, the verbose name gains a language suffix) and clones
the wrapped field's behavior: `to_python`, `get_prep_lookup` and
`get_internal_type` delegate to the wrapped field, and `formfield` keeps the
wrapped field's widget class. -/
theorem translation_field_clones_wrapped (f : DjangoField) (lang : String) :
    (mkTranslationField f lang).attname = build_localized_fieldname f.name lang ∧
    (mkTranslationField f lang).name = build_localized_fieldname f.name lang ∧
    (mkTranslationField f lang).verbose_name
      = build_localized_verbose_name f.verbose_name lang ∧
    (∀ v, (mkTranslationField f lang).to_python v = f.to_python v) ∧
    (∀ lt v, (mkTranslationField f lang).get_prep_lookup lt v = f.get_prep_lookup lt v) ∧
    (mkTranslationField f lang).get_internal_type = f.get_internal_type ∧
    (mkTranslationField f lang).formfieldWidget = f.formfieldWidget :=
  ⟨rfl, rfl, rfl, fun _ => rfl, fun _ _ => rfl, rfl, rfl⟩

/-- C7: for one declared field and a duplicate-free configured language list,
exactly one shadow column is generated per language: the generated list has
one entry per language, and each language's localized name occurs exactly
once in it. -/
theorem one_shadow_field_per_language (fieldName : String) (languages : List String)
    (hnd : languages.Nodup) :
    (add_translation_fields fieldName languages).length = languages.length ∧
    ∀ lang ∈ languages,
      (add_translation_fields fieldName languages).count
        (build_localized_fieldname fieldName lang) = 1 := by
  constructor
  · simp [add_translation_fields]
  · intro lang hmem
    unfold add_translation_fields
    rw [List.count_map_of_injective]
    · exact List.count_eq_one_of_mem hnd hmem
    · intro a b h
      exact build_localized_fieldname_inj fieldName h

theorem one_shadow_field_per_language_witness :
    (add_translation_fields "title" ["en", "de"]).length = 2 ∧
    (add_translation_fields "title" ["en", "de"]).count
      (build_localized_fieldname "title" "de") = 1 :=
  ⟨(one_shadow_field_per_language "title" ["en", "de"] (by decide)).1,
   (one_shadow_field_per_language "title" ["en", "de"] (by decide)).2 "de" (by decide)⟩

/-- C8: every `TranslationField` and `TranslationFileField` is constructed
with `null = True` and `blank = True`, whatever the wrapped field's own
settings were. -/
theorem translation_fields_null_blank (f : DjangoField) (lang : String) :
    (mkTranslationField f lang).null = true ∧
    (mkTranslationField f lang).blank = true ∧
    (mkTranslationFileField f lang).null = true ∧
    (mkTranslationFileField f lang).blank = true :=
  ⟨rfl, rfl, rfl, rfl⟩

/-- C9: `create_translation_field` raises `ImproperlyConfigured` exactly when
the field is neither a `CharField`/`TextField`/`FileField`/`ImageField`
instance nor listed in `CUSTOM_FIELDS`; otherwise it returns the image kind
for `ImageField` instances, the file kind for other `FileField` instances,
and the plain kind for the remaining supported fields. -/
theorem create_translation_field_spec (CUSTOM_FIELDS : List String) (f : ModelField) :
    (create_translation_field CUSTOM_FIELDS f =
        Except.error (f.clsName ++ " is not supported by modeltranslation.") ↔
      ¬(f.isCharField = true ∨ f.isTextField = true ∨ f.isFileField = true ∨
        f.isImageField = true ∨ f.clsName ∈ CUSTOM_FIELDS)) ∧
    (f.isImageField = true →
      create_translation_field CUSTOM_FIELDS f = Except.ok TransFieldKind.image) ∧
    (f.isImageField = false → f.isFileField = true →
      create_translation_field CUSTOM_FIELDS f = Except.ok TransFieldKind.file) ∧
    ((f.isCharField = true ∨ f.isTextField = true ∨ f.clsName ∈ CUSTOM_FIELDS) →
      f.isImageField = false → f.isFileField = false →
      create_translation_field CUSTOM_FIELDS f = Except.ok TransFieldKind.plain) := by
  unfold create_translation_field
  split_ifs with h1 h2 h3 <;> simp_all

/-- An unsupported declared field, for concrete evaluations. -/
def integerModelField : ModelField :=
  { clsName := "IntegerField"
    isCharField := false
    isTextField := false
    isFileField := false
    isImageField := false }

/-- An `ImageField` instance (which is also a `FileField` instance). -/
def imageModelField : ModelField :=
  { clsName := "ImageField"
    isCharField := false
    isTextField := false
    isFileField := true
    isImageField := true }

theorem create_translation_field_spec_witness :
    create_translation_field [] imageModelField = Except.ok TransFieldKind.image ∧
    create_translation_field [] integerModelField =
      Except.error ("IntegerField" ++ " is not supported by modeltranslation.") :=
  ⟨(create_translation_field_spec [] imageModelField).2.1 rfl,
   (create_translation_field_spec [] integerModelField).1.mpr (by decide)⟩

/-- C10: `TranslationField.get_prep_value` maps the empty string to `None`
before delegating to the wrapped field's `get_prep_value`, leaves other
values unchanged before delegating, and hence persists `''` as `NULL`
whenever the wrapped field maps `None` to `None`. -/
theorem get_prep_value_maps_empty_to_none (f : DjangoField) (lang : String)
    (v : PyVal) (hv : v ≠ PyVal.str "") :
    (mkTranslationField f lang).get_prep_value (PyVal.str "")
      = f.get_prep_value PyVal.none ∧
    (mkTranslationField f lang).get_prep_value v = f.get_prep_value v ∧
    (f.get_prep_value PyVal.none = PyVal.none →
      (mkTranslationField f lang).get_prep_value (PyVal.str "") = PyVal.none) := by
  refine ⟨rfl, ?_, fun h => h⟩
  simp [TranslationField.get_prep_value, mkTranslationField, hv]

theorem get_prep_value_maps_empty_to_none_witness :
    (PyVal.str "x" ≠ PyVal.str "") ∧
    ((mkTranslationField titleField "en").get_prep_value (PyVal.str "")
        = titleField.get_prep_value PyVal.none ∧
     (mkTranslationField titleField "en").get_prep_value (PyVal.str "x")
        = titleField.get_prep_value (PyVal.str "x") ∧
     (titleField.get_prep_value PyVal.none = PyVal.none →
       (mkTranslationField titleField "en").get_prep_value (PyVal.str "")
          = PyVal.none)) :=
  ⟨by decide, get_prep_value_maps_empty_to_none titleField "en" (PyVal.str "x") (by decide)⟩

